import Mathlib

/-!
Verification of the SystemAIR Home Assistant integration core
(`custom_components/systemair/coordinator.py`, `select.py`, `const.py`).

The Python dictionaries used by the source (`self.units`,
`unit.user_mode_times`, `unit.temperatures`, config-entry data, the
persisted blob) are embedded as association lists over `String` keys with
first-occurrence lookup, replace-or-append assignment (the semantics of
`d[k] = v` on a Python dict) and in-place modification of the value stored
at a key.  Remote I/O (the vendor `systemair_api` library, treated by the
code as a black box) is embedded as explicit outcome parameters: each
remote invocation either returns a boolean or raises, and raised errors
carry their message string so that the retry classification on the message
text can be modelled exactly as the source writes it.
-/

namespace Systemair

/-- First-occurrence lookup in an association list: Python `d.get(k)`. -/
def dictGet {β : Type} : List (String × β) → String → Option β
  | [], _ => none
  | p :: t, key => if p.1 = key then some p.2 else dictGet t key

/-- Replace-or-append assignment: Python `d[k] = v` (replaces the binding
in place when the key is present, appends otherwise). -/
def dictSet {β : Type} : List (String × β) → String → β → List (String × β)
  | [], key, val => [(key, val)]
  | p :: t, key, val => if p.1 = key then (key, val) :: t else p :: dictSet t key val

/-- In-place modification of the object stored at a key: Python
`d[k].field = v` mutates the stored object, leaving the dict shape alone. -/
def dictModify {β : Type} : List (String × β) → String → (β → β) → List (String × β)
  | [], _, _ => []
  | p :: t, key, f => if p.1 = key then (p.1, f p.2) :: t else p :: dictModify t key f

theorem dictGet_set_self {β : Type} (m : List (String × β)) (k : String) (v : β) :
    dictGet (dictSet m k v) k = some v := by
  induction m with
  | nil => simp [dictGet, dictSet]
  | cons p t ih =>
    simp only [dictSet]
    by_cases h : p.1 = k
    · rw [if_pos h]
      simp [dictGet]
    · rw [if_neg h]
      simp only [dictGet]
      rw [if_neg h, ih]

theorem dictGet_set_ne {β : Type} (m : List (String × β)) (k k2 : String) (v : β)
    (h : k ≠ k2) : dictGet (dictSet m k v) k2 = dictGet m k2 := by
  induction m with
  | nil => simp [dictGet, dictSet, h]
  | cons p t ih =>
    simp only [dictSet]
    by_cases hp : p.1 = k
    · rw [if_pos hp]
      simp only [dictGet]
      have hpk2 : ¬p.1 = k2 := by rw [hp]; exact h
      rw [if_neg h, if_neg hpk2]
    · rw [if_neg hp]
      simp only [dictGet]
      by_cases hp2 : p.1 = k2
      · rw [if_pos hp2, if_pos hp2]
      · rw [if_neg hp2, if_neg hp2, ih]

theorem dictGet_modify_self {β : Type} (m : List (String × β)) (k : String) (f : β → β) :
    dictGet (dictModify m k f) k = (dictGet m k).map f := by
  induction m with
  | nil => simp [dictGet, dictModify]
  | cons p t ih =>
    simp only [dictModify]
    by_cases h : p.1 = k
    · rw [if_pos h]
      simp only [dictGet]
      rw [if_pos h, if_pos h]
      rfl
    · rw [if_neg h]
      simp only [dictGet]
      rw [if_neg h, if_neg h, ih]

theorem dictGet_modify_ne {β : Type} (m : List (String × β)) (k k2 : String) (f : β → β)
    (h : k ≠ k2) : dictGet (dictModify m k f) k2 = dictGet m k2 := by
  induction m with
  | nil => simp [dictGet, dictModify]
  | cons p t ih =>
    simp only [dictModify]
    by_cases hp : p.1 = k
    · rw [if_pos hp]
      simp only [dictGet]
      have hpk2 : ¬p.1 = k2 := by rw [hp]; exact fun hh => h hh
      rw [if_neg hpk2, if_neg hpk2]
    · rw [if_neg hp]
      simp only [dictGet]
      by_cases hp2 : p.1 = k2
      · rw [if_pos hp2, if_pos hp2]
      · rw [if_neg hp2, if_neg hp2, ih]

theorem mem_dictModify {β : Type} {m : List (String × β)} {k : String} {f : β → β}
    {p : String × β} (h : p ∈ dictModify m k f) :
    p ∈ m ∨ ∃ v, (k, v) ∈ m ∧ p = (k, f v) := by
  induction m with
  | nil => simp [dictModify] at h
  | cons q t ih =>
    by_cases hq : q.1 = k
    · have hd : dictModify (q :: t) k f = (q.1, f q.2) :: t := by
        simp only [dictModify]
        rw [if_pos hq]
      rw [hd] at h
      rcases List.mem_cons.mp h with h | h
      · right
        refine ⟨q.2, ?_, ?_⟩
        · rw [← hq, Prod.mk.eta]
          exact List.mem_cons_self _ _
        · rw [h, hq]
      · left
        exact List.mem_cons_of_mem _ h
    · have hd : dictModify (q :: t) k f = q :: dictModify t k f := by
        simp only [dictModify]
        rw [if_neg hq]
      rw [hd] at h
      rcases List.mem_cons.mp h with h | h
      · left
        rw [h]
        exact List.mem_cons_self _ _
      · rcases ih h with h2 | ⟨v, hv, hp⟩
        · left
          exact List.mem_cons_of_mem _ h2
        · right
          exact ⟨v, List.mem_cons_of_mem _ hv, hp⟩

theorem mem_dictSet {β : Type} {m : List (String × β)} {k : String} {v : β}
    {p : String × β} (h : p ∈ dictSet m k v) : p ∈ m ∨ p = (k, v) := by
  induction m with
  | nil =>
    simp only [dictSet, List.mem_singleton] at h
    right
    exact h
  | cons q t ih =>
    by_cases hq : q.1 = k
    · have hd : dictSet (q :: t) k v = (k, v) :: t := by
        simp only [dictSet]
        rw [if_pos hq]
      rw [hd] at h
      rcases List.mem_cons.mp h with h | h
      · right; exact h
      · left; exact List.mem_cons_of_mem _ h
    · have hd : dictSet (q :: t) k v = q :: dictSet t k v := by
        simp only [dictSet]
        rw [if_neg hq]
      rw [hd] at h
      rcases List.mem_cons.mp h with h | h
      · left
        rw [h]
        exact List.mem_cons_self _ _
      · rcases ih h with h2 | h2
        · left; exact List.mem_cons_of_mem _ h2
        · right; exact h2

/-! ## Error-message classification (coordinator.py lines 38-40, 346-348)

`error_str = str(ex).lower()` followed by
`"authentication" in error_str or "unauthorized" in error_str`. -/

/-- The character data of a string lowercased: `str(ex).lower()`. -/
def lowerChars (s : String) : List Char := s.data.map Char.toLower

/-- Substring containment on character lists: Python `needle in hay`. -/
def listContains (needle : List Char) : List Char → Bool
  | [] => needle.isEmpty
  | c :: t => List.isPrefixOf needle (c :: t) || listContains needle t

/-- The non-retryable classification of coordinator.py line 39:
the lowercased message contains `authentication` or `unauthorized`. -/
def isAuthErrorMsg (s : String) : Bool :=
  listContains "authentication".data (lowerChars s) ||
    listContains "unauthorized".data (lowerChars s)

/-! ## retry_with_backoff (coordinator.py lines 28-55)

`for attempt in range(max_retries + 1)` invokes the wrapped callable; an
exception on the final attempt is re-raised, an exception whose message is
classified as authentication failure is re-raised at once, any other
exception sleeps with backoff and retries.  The embedding takes the
behaviour of the wrapped callable as a function from the attempt index to
`Except` (an `Except.error` is a raised exception carrying its message) and
additionally returns the number of invocations performed. -/

def retryFrom {α : Type} (func : Nat → Except String α) :
    Nat → Nat → Except String α × Nat
  | 0, attempt => (func attempt, attempt + 1)
  | Nat.succ r, attempt =>
    match func attempt with
    | Except.ok v => (Except.ok v, attempt + 1)
    | Except.error msg =>
      if isAuthErrorMsg msg then (Except.error msg, attempt + 1)
      else retryFrom func r (attempt + 1)

/-- `retry_with_backoff(func, max_retries)`: the result that propagates to
the caller, paired with how many times `func` was invoked. -/
def retry_with_backoff {α : Type} (func : Nat → Except String α)
    (max_retries : Nat) : Except String α × Nat :=
  retryFrom func max_retries 0

theorem retryFrom_all_err {α : Type} (func : Nat → Except String α) (m : Nat → String)
    (r a : Nat)
    (herr : ∀ i, a ≤ i → i ≤ a + r → func i = Except.error (m i))
    (hnon : ∀ i, a ≤ i → i ≤ a + r → isAuthErrorMsg (m i) = false) :
    retryFrom func r a = (Except.error (m (a + r)), a + r + 1) := by
  induction r generalizing a with
  | zero =>
    simp only [retryFrom, Nat.add_zero]
    rw [herr a (Nat.le_refl a) (Nat.le_add_right a 0)]
  | succ r ih =>
    have h0 := herr a (Nat.le_refl a) (Nat.le_add_right a _)
    have hn0 := hnon a (Nat.le_refl a) (Nat.le_add_right a _)
    simp only [retryFrom, h0, hn0, Bool.false_eq_true, if_false]
    have := ih (a + 1)
      (fun i (h1 : a + 1 ≤ i) (h2 : i ≤ a + 1 + r) => herr i (by omega) (by omega))
      (fun i (h1 : a + 1 ≤ i) (h2 : i ≤ a + 1 + r) => hnon i (by omega) (by omega))
    rw [this]
    have hr : a + 1 + r = a + (r + 1) := by omega
    rw [hr]

theorem retryFrom_auth {α : Type} (func : Nat → Except String α) (m : Nat → String)
    (msg : String) :
    ∀ j r a, j ≤ r →
    (∀ i, a ≤ i → i < a + j → func i = Except.error (m i)) →
    (∀ i, a ≤ i → i < a + j → isAuthErrorMsg (m i) = false) →
    func (a + j) = Except.error msg →
    isAuthErrorMsg msg = true →
    retryFrom func r a = (Except.error msg, a + j + 1) := by
  intro j
  induction j with
  | zero =>
    intro r a hjr hpre hpna hj hauth
    rw [Nat.add_zero] at hj
    cases r with
    | zero => simp [retryFrom, hj]
    | succ r2 => simp [retryFrom, hj, hauth]
  | succ j ih =>
    intro r a hjr hpre hpna hj hauth
    cases r with
    | zero => omega
    | succ r2 =>
      have h0 : func a = Except.error (m a) := hpre a (Nat.le_refl a) (by omega)
      have hn0 : isAuthErrorMsg (m a) = false := hpna a (Nat.le_refl a) (by omega)
      simp only [retryFrom, h0, hn0, Bool.false_eq_true, if_false]
      have hrec := ih r2 (a + 1) (by omega)
        (fun i (h1 : a + 1 ≤ i) (h2 : i < a + 1 + j) => hpre i (by omega) (by omega))
        (fun i (h1 : a + 1 ≤ i) (h2 : i < a + 1 + j) => hpna i (by omega) (by omega))
        (by rw [show a + 1 + j = a + (j + 1) from by omega]; exact hj)
        hauth
      rw [hrec]
      have harith : a + 1 + j + 1 = a + (j + 1) + 1 := by omega
      rw [harith]

/-- Claim C1: a remote operation run through `retry_with_backoff` whose every
invocation raises an error not classified as authentication/authorization
failure is invoked exactly `max_retries + 1` times and the last error
propagates; an invocation raising an authentication/authorization error
propagates that error immediately with no further invocation, so an
operation raising such an error on its first invocation is invoked exactly
once. -/
theorem retry_backoff_classification (max_retries : Nat) :
    (∀ (α : Type) (func : Nat → Except String α) (m : Nat → String),
      (∀ i, i ≤ max_retries → func i = Except.error (m i)) →
      (∀ i, i ≤ max_retries → isAuthErrorMsg (m i) = false) →
      retry_with_backoff func max_retries = (Except.error (m max_retries), max_retries + 1))
    ∧
    (∀ (α : Type) (func : Nat → Except String α) (m : Nat → String) (msg : String)
        (j : Nat), j ≤ max_retries →
      (∀ i, i < j → func i = Except.error (m i)) →
      (∀ i, i < j → isAuthErrorMsg (m i) = false) →
      func j = Except.error msg →
      isAuthErrorMsg msg = true →
      retry_with_backoff func max_retries = (Except.error msg, j + 1)) ∧
    (∀ (α : Type) (func : Nat → Except String α) (msg : String),
      func 0 = Except.error msg →
      isAuthErrorMsg msg = true →
      retry_with_backoff func max_retries = (Except.error msg, 1)) := by
  refine ⟨?_, ?_, ?_⟩
  · intro α func m herr hnon
    have := retryFrom_all_err func m max_retries 0
      (fun i (h1 : 0 ≤ i) (h2 : i ≤ 0 + max_retries) => herr i (by omega))
      (fun i (h1 : 0 ≤ i) (h2 : i ≤ 0 + max_retries) => hnon i (by omega))
    simpa [retry_with_backoff] using this
  · intro α func m msg j hj hpre hpna hja hauth
    have := retryFrom_auth func m msg j max_retries 0 hj
      (fun i (h1 : 0 ≤ i) (h2 : i < 0 + j) => hpre i (by omega))
      (fun i (h1 : 0 ≤ i) (h2 : i < 0 + j) => hpna i (by omega))
      (by rw [Nat.zero_add]; exact hja) hauth
    simpa [retry_with_backoff] using this
  · intro α func msg h0 hauth
    cases max_retries with
    | zero => simp [retry_with_backoff, retryFrom, h0]
    | succ r => simp [retry_with_backoff, retryFrom, h0, hauth]

/-- Witness for claim C1 at concrete inputs: four invocations for a
persistent timeout with `max_retries = 3`, one invocation for an
unauthorized error. -/
theorem retry_backoff_classification_witness :
    retry_with_backoff (fun _ => (Except.error "timeout" : Except String Unit)) 3
      = (Except.error "timeout", 4) ∧
    retry_with_backoff
        (fun i => if i = 0 then (Except.error "timeout" : Except String Unit)
          else Except.error "401 unauthorized") 3
      = (Except.error "401 unauthorized", 2) ∧
    retry_with_backoff (fun _ => (Except.error "401 unauthorized" : Except String Unit)) 3
      = (Except.error "401 unauthorized", 1) := by
  have ht : isAuthErrorMsg "timeout" = false := by decide
  have ha : isAuthErrorMsg "401 unauthorized" = true := by decide
  refine ⟨(retry_backoff_classification 3).1 Unit (fun _ => Except.error "timeout")
      (fun _ => "timeout") (fun _ _ => rfl) (fun _ _ => ht), ?_,
    (retry_backoff_classification 3).2.2 Unit (fun _ => Except.error "401 unauthorized")
      "401 unauthorized" rfl ha⟩
  refine (retry_backoff_classification 3).2.1 Unit _ (fun _ => "timeout")
    "401 unauthorized" 1 (by omega) ?_ (fun _ _ => ht) rfl ha
  intro i hi
  have h0 : i = 0 := by omega
  rw [h0]
  rfl

/-! ## Data model

`VentilationUnit` keeps the mutable fields of the unit-state record that
the integration code itself reads and writes (`unit.user_mode`,
`unit.airflow`, `unit.temperatures["setpoint"]`, `unit.user_mode_times`);
descriptive fields never touched by the claims are omitted.  Mode values
are the `MODE_*` constants of `const.py`, which the `UserModes` constants
of the vendor package mirror. -/

def MODE_AUTO : Nat := 0
def MODE_MANUAL : Nat := 1
def MODE_CROWDED : Nat := 2
def MODE_REFRESH : Nat := 3
def MODE_FIREPLACE : Nat := 4
def MODE_AWAY : Nat := 5
def MODE_HOLIDAY : Nat := 6

def CONF_DURATION_HOLIDAY : String := "duration_holiday"
def CONF_DURATION_AWAY : String := "duration_away"
def CONF_DURATION_FIREPLACE : String := "duration_fireplace"
def CONF_DURATION_REFRESH : String := "duration_refresh"
def CONF_DURATION_CROWDED : String := "duration_crowded"

structure VentilationUnit where
  user_mode : Nat
  airflow : Int
  temperatures : List (String × Rat)
  user_mode_times : List (String × Nat)
deriving DecidableEq

structure CoordState where
  units : List (String × VentilationUnit)
  /-- whether `self.api` is non-`None` -/
  hasApi : Bool
  available : Bool
  /-- the `data` of the config entry found by the `hass.data[DOMAIN]`
  search of coordinator.py lines 423-427 (`none` when no entry is found);
  duration values are stored in their natural units -/
  config : Option (List (String × Nat))
deriving DecidableEq

/-- Result of a coordinator command: the boolean returned to the caller,
the state after the call, and the number of remote invocations issued. -/
structure CmdOut where
  ok : Bool
  st : CoordState
  calls : Nat
deriving DecidableEq

/-- Outcome of one remote call that returns a boolean: `returns b`, or
`raises` (an exception caught by the surrounding handler). -/
inductive SendOutcome where
  | returns (b : Bool)
  | raises
deriving DecidableEq

/-- Outcome of `unit.set_user_mode(api, mode, time)`: a boolean, a
`TypeError` (old vendor package) followed by the outcome of the fallback
two-argument call (`none` when the fallback itself raises), or another
exception. -/
inductive ModeSend where
  | returns (b : Bool)
  | typeErrorThen (b : Option Bool)
  | raises
deriving DecidableEq

/-- Outcome of one invocation inside the inline retry loop of `set_mode`
(coordinator.py lines 335-362), with the raised message kept for the
retry classification. -/
inductive CallOutcome where
  | returns (b : Bool)
  | raises (msg : String)

/-- `get_mode_name_for_key` (the fallback mode map of coordinator.py lines
390-398, which the vendor method mirrors): timed modes map to their key,
everything else to the empty string. -/
def get_mode_name_for_key (mode : Nat) : String :=
  if mode = MODE_HOLIDAY then "holiday"
  else if mode = MODE_AWAY then "away"
  else if mode = MODE_FIREPLACE then "fireplace"
  else if mode = MODE_REFRESH then "refresh"
  else if mode = MODE_CROWDED then "crowded"
  else ""

/-- `mode_to_duration_config.get(mode)` of coordinator.py lines 431-440. -/
def modeToDurationKey (mode : Nat) : Option String :=
  if mode = MODE_HOLIDAY then some CONF_DURATION_HOLIDAY
  else if mode = MODE_AWAY then some CONF_DURATION_AWAY
  else if mode = MODE_FIREPLACE then some CONF_DURATION_FIREPLACE
  else if mode = MODE_REFRESH then some CONF_DURATION_REFRESH
  else if mode = MODE_CROWDED then some CONF_DURATION_CROWDED
  else none

/-- `convert_duration_to_minutes` of const.py: holiday is configured in
days, away and crowded in hours, fireplace and refresh in minutes. -/
def convert_duration_to_minutes (key : String) (value : Nat) : Nat :=
  if key = CONF_DURATION_HOLIDAY then value * 24 * 60
  else if key = CONF_DURATION_AWAY ∨ key = CONF_DURATION_CROWDED then value * 60
  else if key = CONF_DURATION_FIREPLACE ∨ key = CONF_DURATION_REFRESH then value
  else value

/-- The duration-resolution chain of `set_mode_with_time` (coordinator.py
lines 384-444): an explicit `time_minutes` wins, else the locally stored
value for the mode key, else the converted config default, else nothing. -/
def resolveTime (unit : VentilationUnit) (config : Option (List (String × Nat)))
    (mode : Nat) (time_minutes : Option Nat) : Option Nat :=
  let mode_key := get_mode_name_for_key mode
  let t1 : Option Nat :=
    match time_minutes with
    | some t => some t
    | none => if mode_key = "" then none else dictGet unit.user_mode_times mode_key
  match t1 with
  | some t => some t
  | none =>
    match config with
    | none => none
    | some cfg =>
      match modeToDurationKey mode with
      | none => none
      | some key =>
        match dictGet cfg key with
        | none => none
        | some v => some (convert_duration_to_minutes key v)

/-- `SystemairUpdateCoordinator.set_mode_with_time` (coordinator.py lines
368-470).  `send` is the outcome of `unit.set_user_mode(api, mode, t)`
where `t` is the resolved duration. -/
def set_mode_with_time (st : CoordState) (unit_id : String) (mode : Nat)
    (time_minutes : Option Nat) (send : ModeSend) : CmdOut :=
  match dictGet st.units unit_id with
  | none => { ok := false, st := st, calls := 0 }
  | some unit =>
    if st.hasApi then
      let mode_key := get_mode_name_for_key mode
      let t := resolveTime unit st.config mode time_minutes
      match send with
      | ModeSend.returns true =>
        let unit1 := { unit with user_mode := mode }
        let unit2 :=
          match t with
          | some tv =>
            if mode_key = "" then unit1
            else { unit1 with user_mode_times := dictSet unit1.user_mode_times mode_key tv }
          | none => unit1
        { ok := true,
          st := { st with units := dictModify st.units unit_id (fun _ => unit2) },
          calls := 1 }
      | ModeSend.returns false => { ok := false, st := st, calls := 1 }
      | ModeSend.typeErrorThen (some true) =>
        { ok := true,
          st := { st with units := dictModify st.units unit_id (fun u => { u with user_mode := mode }) },
          calls := 2 }
      | ModeSend.typeErrorThen (some false) => { ok := false, st := st, calls := 2 }
      | ModeSend.typeErrorThen none => { ok := false, st := st, calls := 2 }
      | ModeSend.raises => { ok := false, st := st, calls := 1 }
    else { ok := false, st := st, calls := 0 }

/-- The inline retry loop of `set_mode` (coordinator.py lines 335-362):
`for attempt in range(4)`, re-raising on the final attempt or on an
authentication-classified message, retrying otherwise.  Returns the
boolean of the first non-raising invocation (`none` when an exception
propagated to the surrounding handler) and the number of invocations. -/
def setModeAttempts (sends : Nat → CallOutcome) : Nat → Nat → Option Bool × Nat
  | 0, a =>
    match sends a with
    | CallOutcome.returns b => (some b, a + 1)
    | CallOutcome.raises _ => (none, a + 1)
  | Nat.succ r, a =>
    match sends a with
    | CallOutcome.returns b => (some b, a + 1)
    | CallOutcome.raises msg =>
      if isAuthErrorMsg msg then (none, a + 1)
      else setModeAttempts sends r (a + 1)

def timed_modes : List Nat :=
  [ MODE_HOLIDAY, MODE_AWAY, MODE_FIREPLACE, MODE_REFRESH, MODE_CROWDED]

/-- `SystemairUpdateCoordinator.set_mode` (coordinator.py lines 310-366):
timed modes delegate to `set_mode_with_time` with no explicit duration;
non-timed modes run the inline retry loop and update `user_mode`
optimistically on a truthy result. -/
def set_mode (st : CoordState) (unit_id : String) (mode : Nat)
    (timedSend : ModeSend) (sends : Nat → CallOutcome) : CmdOut :=
  if mode ∈ timed_modes then
    set_mode_with_time st unit_id mode none timedSend
  else
    match dictGet st.units unit_id with
    | some _ =>
      if st.hasApi then
        match setModeAttempts sends 3 0 with
        | (some true, n) =>
          { ok := true,
            st := { st with units := dictModify st.units unit_id (fun u => { u with user_mode := mode }) },
            calls := n }
        | (some false, n) => { ok := false, st := st, calls := n }
        | (none, n) => { ok := false, st := st, calls := n }
      else { ok := false, st := st, calls := 0 }
    | none => { ok := false, st := st, calls := 0 }

/-- `SystemairUpdateCoordinator.set_fan_speed` (coordinator.py lines
472-526): clamps the requested speed to `[1, 5]`, issues one
`unit.set_value` call, and stores the clamped level into `unit.airflow`
only on a `True` result. -/
def set_fan_speed (st : CoordState) (unit_id : String) (speed : Int)
    (send : SendOutcome) : CmdOut :=
  match dictGet st.units unit_id with
  | some _ =>
    if st.hasApi then
      let airflow_value := max 1 (min 5 speed)
      match send with
      | SendOutcome.returns true =>
        { ok := true,
          st := { st with units := dictModify st.units unit_id (fun u => { u with airflow := airflow_value }) },
          calls := 1 }
      | SendOutcome.returns false => { ok := false, st := st, calls := 1 }
      | SendOutcome.raises => { ok := false, st := st, calls := 1 }
    else { ok := false, st := st, calls := 0 }
  | none => { ok := false, st := st, calls := 0 }

/-- `SystemairUpdateCoordinator.set_temperature` (coordinator.py lines
528-547): one `unit.set_temperature` call (the value sent on the wire is
the setpoint in tenths of a degree), storing the requested setpoint into
`unit.temperatures["setpoint"]` only on a `True` result. -/
def set_temperature (st : CoordState) (unit_id : String) (temperature : Rat)
    (send : SendOutcome) : CmdOut :=
  match dictGet st.units unit_id with
  | some _ =>
    if st.hasApi then
      match send with
      | SendOutcome.returns true =>
        let f := fun u : VentilationUnit =>
          { u with temperatures := dictSet u.temperatures "setpoint" temperature }
        { ok := true,
          st := { st with units := dictModify st.units unit_id f },
          calls := 1 }
      | SendOutcome.returns false => { ok := false, st := st, calls := 1 }
      | SendOutcome.raises => { ok := false, st := st, calls := 1 }
    else { ok := false, st := st, calls := 0 }
  | none => { ok := false, st := st, calls := 0 }

/-- `SystemairUpdateCoordinator.set_user_mode_time` (coordinator.py lines
576-606): stores the duration into `unit.user_mode_times[mode]` locally,
never contacting the device. -/
def set_user_mode_time (st : CoordState) (unit_id : String) (mode : String)
    (time_value : Nat) : CmdOut :=
  match dictGet st.units unit_id with
  | some _ =>
    let f := fun u : VentilationUnit =>
      { u with user_mode_times := dictSet u.user_mode_times mode time_value }
    { ok := true,
      st := { st with units := dictModify st.units unit_id f },
      calls := 0 }
  | none => { ok := false, st := st, calls := 0 }

/-! ## Persistence merge (coordinator.py lines 549-574) -/

/-- Sequential `d[k] = v` assignments: the per-unit inner loop of
`async_load_stored_time_values` (`for mode, time_value in mode_times.items()`). -/
def mergeTimes (mode_times : List (String × Nat)) (m : List (String × Nat)) :
    List (String × Nat) :=
  mode_times.foldl (fun acc p => dictSet acc p.1 p.2) m

/-- One iteration of the outer loop of `async_load_stored_time_values`:
when the stored unit id matches a live unit (`unit_id in self.units`),
merge its stored durations into that unit's `user_mode_times`. -/
def loadStep (us : List (String × VentilationUnit))
    (entry : String × List (String × Nat)) : List (String × VentilationUnit) :=
  if (dictGet us entry.1).isSome then
    dictModify us entry.1
      (fun u => { u with user_mode_times := mergeTimes entry.2 u.user_mode_times })
  else us

/-- `SystemairUpdateCoordinator.async_load_stored_time_values`: for every
stored unit id that is a key of the live unit store, merge its stored mode
durations into that unit's `user_mode_times`; `none` models a missing or
empty stored blob (`if stored_data:` falsy), in which case nothing runs. -/
def async_load_stored_time_values (units : List (String × VentilationUnit))
    (stored : Option (List (String × List (String × Nat)))) :
    List (String × VentilationUnit) :=
  match stored with
  | none => units
  | some blob => blob.foldl loadStep units

/-- The last binding of a key in an association list (the value a sequence
of `d[k] = v` assignments leaves behind for that key). -/
def lastGet (mt : List (String × Nat)) (k : String) : Option Nat :=
  match mt with
  | [] => none
  | p :: t =>
    match lastGet t k with
    | some v => some v
    | none => if p.1 = k then some p.2 else none

/-- The last duration the whole blob writes to key `k` of unit `id`. -/
def blobLastFor (blob : List (String × List (String × Nat))) (id k : String) :
    Option Nat :=
  match blob with
  | [] => none
  | e :: rest =>
    match blobLastFor rest id k with
    | some v => some v
    | none => if e.1 = id then lastGet e.2 k else none

/-! ## WebSocket push handler (coordinator.py lines 165-203) -/

/-- The inbound message fields the handler inspects: `action` and `type`
at top level, `id` inside the `properties` object (absent when either the
`properties` key or its `id` key is missing), and the top-level
`identifier` key. -/
structure WsMessage where
  action : Option String
  type : Option String
  properties_id : Option String
  identifier : Option String

/-- `handle_ws_message`: the structured `DEVICE_STATUS_UPDATE`/`SYSTEM_EVENT`
shape takes the device id from `properties.id` (requiring it truthy, i.e.
non-empty), the flat shape from a present top-level `identifier`; a known
id merges via `unit.update_from_websocket` (a vendor method, passed in
abstractly) and schedules an immediate refresh (the returned boolean);
anything else is logged and dropped. -/
def handle_ws_message (units : List (String × VentilationUnit)) (msg : WsMessage)
    (update_from_websocket : VentilationUnit → WsMessage → VentilationUnit) :
    List (String × VentilationUnit) × Bool :=
  if msg.action = some "DEVICE_STATUS_UPDATE" ∧ msg.type = some "SYSTEM_EVENT" then
    match msg.properties_id with
    | some device_id =>
      if device_id ≠ "" ∧ (dictGet units device_id).isSome then
        (dictModify units device_id (fun u => update_from_websocket u msg), true)
      else (units, false)
    | none => (units, false)
  else
    match msg.identifier with
    | some unit_id =>
      if (dictGet units unit_id).isSome then
        (dictModify units unit_id (fun u => update_from_websocket u msg), true)
      else (units, false)
    | none => (units, false)

/-! ## The refresh cycle `_async_update_data` (coordinator.py lines 85-308)

Remote interaction during one cycle is abstracted into a `CycleEnv`: each
step's outcome, with `Except.error msg` standing for a raised
`SystemairError`/`TokenRefreshError`/`APIError` (the types the outer
handler catches and converts into `UpdateFailed`).  Status blobs have an
abstract type `σ` merged by the vendor method `unit.update_from_api`. -/

/-- One device descriptor of the discovery response, keeping the keys the
code reads: `identifier`, `id` and `name`. -/
structure Device where
  identifier : Option String
  idField : Option String
  name : Option String

/-- The discovery response: the two envelope shapes the code probes, in
order (`data.GetAccountDevices`, then `data.account.devices`). -/
structure DevicesResponse where
  getAccountDevices : Option (List Device)
  accountDevices : Option (List Device)

/-- Python truthiness for an optional string (an empty string is falsy). -/
def truthyOpt : Option String → Option String
  | some s => if s = "" then none else some s
  | none => none

/-- The envelope probing of coordinator.py lines 110-132: first shape,
else second shape, else zero devices. -/
def parseDevices (r : DevicesResponse) : List Device :=
  match r.getAccountDevices with
  | some ds => ds
  | none =>
    match r.accountDevices with
    | some ds => ds
    | none => []

structure CycleEnv (σ : Type) where
  /-- outcome of `self.authenticator.authenticate()` -/
  authenticate : Except String Unit
  /-- outcome of `self.api.get_account_devices()` -/
  getDevices : Except String DevicesResponse
  /-- `VentilationUnit(device_id, device_name)` construction (vendor) -/
  mkUnit : String → String → VentilationUnit
  /-- initial per-device status fetch after its bounded retry: `none` when
  retries exhausted (tolerated; the unit stays registered with defaults) -/
  fetchInit : String → Option σ
  /-- `unit.update_from_api(status)` (vendor) -/
  update_from_api : VentilationUnit → σ → VentilationUnit
  /-- `self.authenticator.is_token_valid()` -/
  tokenValid : Bool
  /-- outcome of the token refresh plus WebSocket reconnection step -/
  refreshToken : Except String Unit
  /-- steady-state per-unit status fetch after its bounded retry: `none`
  when retries exhausted (the unit is skipped this cycle) -/
  fetchPoll : String → Option σ

/-- The first-refresh block of `_async_update_data` (lines 89-220):
authenticate, create the API client, enumerate devices, register each
device with a truthy id and name (merging its initial status when the
fetch succeeds), and mark the coordinator available.  The WebSocket
subscription failure is tolerated and leaves no modelled state.  Errors
are returned together with the state mutated so far (`self.api` is
assigned before discovery, so a discovery failure still leaves the API
client set). -/
def discoverPhase {σ : Type} (st : CoordState) (env : CycleEnv σ) :
    CoordState × Option String :=
  match env.authenticate with
  | Except.error m => (st, some m)
  | Except.ok _ =>
    let stA := { st with hasApi := true }
    match env.getDevices with
    | Except.error m => (stA, some m)
    | Except.ok resp =>
      let devices := parseDevices resp
      let units := devices.foldl (fun acc d =>
        let device_id :=
          match truthyOpt d.identifier with
          | some s => some s
          | none => d.idField
        match truthyOpt device_id, truthyOpt d.name with
        | some i, some n =>
          let u0 := env.mkUnit i n
          let u :=
            match env.fetchInit i with
            | some s => env.update_from_api u0 s
            | none => u0
          dictSet acc i u
        | some _, none => acc
        | none, _ => acc) stA.units
      ({ stA with units := units, available := true }, none)

/-- The token check of lines 222-280 (refresh plus WebSocket recreation;
no modelled state changes on success). -/
def refreshPhase (st : CoordState) {σ : Type} (env : CycleEnv σ) :
    CoordState × Option String :=
  if env.tokenValid then (st, none)
  else
    match env.refreshToken with
    | Except.error m => (st, some m)
    | Except.ok _ => (st, none)

/-- The steady-state poll loop of lines 282-300: every registered unit is
fetched with bounded retry; a unit whose fetch fails is skipped (`continue`)
with its state left as-is, all others are merged. -/
def pollPhase {σ : Type} (st : CoordState) (env : CycleEnv σ) : CoordState :=
  { st with units := st.units.map (fun p =>
      match env.fetchPoll p.1 with
      | some s => (p.1, env.update_from_api p.2 s)
      | none => p) }

/-- `_async_update_data` with its outer handler (lines 305-308): a raised
`SystemairError`/`TokenRefreshError`/`APIError` sets `available = False`
and surfaces as `UpdateFailed` (the `some` message in the first
component); otherwise the cycle completes and returns the unit store. -/
def asyncUpdateData {σ : Type} (st : CoordState) (env : CycleEnv σ) :
    Option String × CoordState :=
  let p1 := if st.hasApi then (st, none) else discoverPhase st env
  match p1.2 with
  | some m => (some m, { p1.1 with available := false })
  | none =>
    let p2 := refreshPhase p1.1 env
    match p2.2 with
    | some m => (some m, { p2.1 with available := false })
    | none => (none, pollPhase p2.1 env)

/-! ## The airflow-level select entity (select.py lines 166-259) -/

def AIRFLOW_SELECTABLE_OPTIONS : List String := ["Low", "Normal", "High", "Refresh"]

/-- `AIRFLOW_NAME_TO_LEVEL` of select.py lines 39-45, as a lookup. -/
def airflowNameToLevel (s : String) : Option Int :=
  if s = "Off" then some 1
  else if s = "Low" then some 2
  else if s = "Normal" then some 3
  else if s = "High" then some 4
  else if s = "Refresh" then some 5
  else none

/-- Result of the select-entity flow: the final state, whether a
Manual-mode command was issued first, and whether the airflow-level
command (`set_fan_speed`) was invoked. -/
structure SelOut where
  st : CoordState
  manualTried : Bool
  fanTried : Bool
deriving DecidableEq

/-- `SystemairAirflowLevelSelect.async_select_option`: restricted options
are rejected; `Refresh` activates Refresh mode (with the configured
duration when present) and on success optimistically sets both mode and
airflow; `Low`/`Normal`/`High` first switch to Manual mode when not
already in it, aborting without touching the airflow level if that switch
fails, then issue the fan-speed command and optimistically store the level
on success.  The entity's `self._unit` writes hit the same shared
`VentilationUnit` objects, i.e. the coordinator unit store. -/
def async_select_option (st : CoordState) (unit_id : String) (option : String)
    (modeTimedSend : ModeSend) (modeSends : Nat → CallOutcome)
    (fanSend : SendOutcome) : SelOut :=
  if option ∉ AIRFLOW_SELECTABLE_OPTIONS then
    { st := st, manualTried := false, fanTried := false }
  else
    match airflowNameToLevel option with
    | none => { st := st, manualTried := false, fanTried := false }
    | some level =>
      if option = "Refresh" then
        let time_minutes : Option Nat :=
          match st.config with
          | some cfg =>
            match dictGet cfg CONF_DURATION_REFRESH with
            | some v => some (convert_duration_to_minutes CONF_DURATION_REFRESH v)
            | none => none
          | none => none
        let r :=
          match time_minutes with
          | some t => set_mode_with_time st unit_id MODE_REFRESH (some t) modeTimedSend
          | none => set_mode st unit_id MODE_REFRESH modeTimedSend modeSends
        if r.ok then
          let f := fun u : VentilationUnit =>
            { u with user_mode := MODE_REFRESH, airflow := level }
          { st := { r.st with units := dictModify r.st.units unit_id f },
            manualTried := false, fanTried := false }
        else { st := r.st, manualTried := false, fanTried := false }
      else
        match dictGet st.units unit_id with
        | none => { st := st, manualTried := false, fanTried := false }
        | some unit =>
          if unit.user_mode ≠ MODE_MANUAL then
            let r := set_mode st unit_id MODE_MANUAL modeTimedSend modeSends
            if r.ok = false then
              { st := r.st, manualTried := true, fanTried := false }
            else
              let fm := fun u : VentilationUnit => { u with user_mode := MODE_MANUAL }
              let st2 := { r.st with units := dictModify r.st.units unit_id fm }
              let r2 := set_fan_speed st2 unit_id level fanSend
              if r2.ok then
                let fa := fun u : VentilationUnit => { u with airflow := level }
                { st := { r2.st with units := dictModify r2.st.units unit_id fa },
                  manualTried := true, fanTried := true }
              else { st := r2.st, manualTried := true, fanTried := true }
          else
            let r2 := set_fan_speed st unit_id level fanSend
            if r2.ok then
              let fa := fun u : VentilationUnit => { u with airflow := level }
              { st := { r2.st with units := dictModify r2.st.units unit_id fa },
                manualTried := false, fanTried := true }
            else { st := r2.st, manualTried := false, fanTried := true }

/-! ## Projections and helper lemmas -/

/-- The `user_mode` of the unit registered under `id`, if any. -/
def modeOf (st : CoordState) (id : String) : Option Nat :=
  (dictGet st.units id).map VentilationUnit.user_mode

/-- The `airflow` of the unit registered under `id`, if any. -/
def airflowOf (st : CoordState) (id : String) : Option Int :=
  (dictGet st.units id).map VentilationUnit.airflow

theorem clamp_bounds (x : Int) : 1 ≤ max 1 (min 5 x) ∧ max 1 (min 5 x) ≤ 5 :=
  ⟨le_max_left _ _, max_le (by norm_num) (le_trans (min_le_left _ _) (by norm_num))⟩

theorem dictGet_modify_map {β γ : Type} (m : List (String × β)) (k id : String)
    (f : β → β) (proj : β → γ) (h : ∀ b, proj (f b) = proj b) :
    (dictGet (dictModify m k f) id).map proj = (dictGet m id).map proj := by
  by_cases hk : k = id
  · subst hk
    rw [dictGet_modify_self]
    cases dictGet m k <;> simp [h]
  · rw [dictGet_modify_ne _ _ _ _ hk]

theorem smwt_st_of_not_ok (st : CoordState) (uid : String) (mode : Nat)
    (tm : Option Nat) (send : ModeSend)
    (h : (set_mode_with_time st uid mode tm send).ok = false) :
    (set_mode_with_time st uid mode tm send).st = st := by
  cases hu : dictGet st.units uid with
  | none => simp [set_mode_with_time, hu]
  | some unit =>
    cases hapi : st.hasApi with
    | false => simp [set_mode_with_time, hu, hapi]
    | true =>
      cases send with
      | returns b =>
        cases b with
        | true => simp [set_mode_with_time, hu, hapi] at h
        | false => simp [set_mode_with_time, hu, hapi]
      | typeErrorThen ob =>
        cases ob with
        | none => simp [set_mode_with_time, hu, hapi]
        | some b =>
          cases b with
          | true => simp [set_mode_with_time, hu, hapi] at h
          | false => simp [set_mode_with_time, hu, hapi]
      | raises => simp [set_mode_with_time, hu, hapi]

theorem set_mode_st_of_not_ok (st : CoordState) (uid : String) (mode : Nat)
    (tS : ModeSend) (sends : Nat → CallOutcome)
    (h : (set_mode st uid mode tS sends).ok = false) :
    (set_mode st uid mode tS sends).st = st := by
  by_cases hm : mode ∈ timed_modes
  · simp only [set_mode, hm, if_pos] at h ⊢
    exact smwt_st_of_not_ok st uid mode none tS h
  · simp only [set_mode, hm, if_neg, not_false_iff] at h ⊢
    cases hu : dictGet st.units uid with
    | none => simp [hu]
    | some u0 =>
      cases hapi : st.hasApi with
      | false => simp [hu, hapi]
      | true =>
        rcases hl : setModeAttempts sends 3 0 with ⟨res, n⟩
        cases res with
        | none => simp [hu, hapi, hl]
        | some b =>
          cases b with
          | true => simp [hu, hapi, hl] at h
          | false => simp [hu, hapi, hl]

/-! ## Concrete sample data used by witnesses -/

def devUnit : VentilationUnit :=
  { user_mode := MODE_AUTO, airflow := 3,
    temperatures := [("setpoint", 20)], user_mode_times := [("away", 120)] }

def devState : CoordState :=
  { units := [("dev1", devUnit)], hasApi := true, available := true,
    config := some [(CONF_DURATION_AWAY, 3)] }

/-- Claim C9: the clamp applied by `set_fan_speed` is `max 1 (min 5 x)`,
whose value always lies in `[1, 5]`; hence any unit entry of the post
state either already existed or carries an airflow equal to the clamped
input and inside `[1, 5]`. -/
theorem fan_speed_clamp :
    (∀ x : Int, 1 ≤ max 1 (min 5 x) ∧ max 1 (min 5 x) ≤ 5) ∧
    (∀ (st : CoordState) (uid : String) (x : Int) (send : SendOutcome)
        (id : String) (u : VentilationUnit),
      (id, u) ∈ (set_fan_speed st uid x send).st.units →
      (id, u) ∈ st.units ∨
        (u.airflow = max 1 (min 5 x) ∧ 1 ≤ u.airflow ∧ u.airflow ≤ 5)) := by
  refine ⟨fun x => clamp_bounds x, ?_⟩
  intro st uid x send id u hmem
  cases hu : dictGet st.units uid with
  | none =>
    have hst : (set_fan_speed st uid x send).st = st := by simp [set_fan_speed, hu]
    rw [hst] at hmem
    exact Or.inl hmem
  | some u0 =>
    cases hapi : st.hasApi with
    | false =>
      have hst : (set_fan_speed st uid x send).st = st := by simp [set_fan_speed, hu, hapi]
      rw [hst] at hmem
      exact Or.inl hmem
    | true =>
      cases send with
      | raises =>
        have hst : (set_fan_speed st uid x SendOutcome.raises).st = st := by
          simp [set_fan_speed, hu, hapi]
        rw [hst] at hmem
        exact Or.inl hmem
      | returns b =>
        cases b with
        | false =>
          have hst : (set_fan_speed st uid x (SendOutcome.returns false)).st = st := by
            simp [set_fan_speed, hu, hapi]
          rw [hst] at hmem
          exact Or.inl hmem
        | true =>
          have hst : (set_fan_speed st uid x (SendOutcome.returns true)).st.units
              = dictModify st.units uid (fun u => { u with airflow := max 1 (min 5 x) }) := by
            simp [set_fan_speed, hu, hapi]
          rw [hst] at hmem
          rcases mem_dictModify hmem with h | ⟨v, hv, hp⟩
          · exact Or.inl h
          · right
            have h2 : u = { v with airflow := max 1 (min 5 x) } := congrArg Prod.snd hp
            rw [h2]
            exact ⟨rfl, clamp_bounds x⟩

/-- Witness for claim C9: a request for level 9 on the sample state stores
the clamped level 5. -/
theorem fan_speed_clamp_witness :
    ("dev1", { devUnit with airflow := max 1 (min 5 (9 : Int)) }) ∈ devState.units ∨
      (({ devUnit with airflow := max 1 (min 5 (9 : Int)) } : VentilationUnit).airflow
          = max 1 (min 5 (9 : Int)) ∧
        1 ≤ ({ devUnit with airflow := max 1 (min 5 (9 : Int)) } : VentilationUnit).airflow ∧
        ({ devUnit with airflow := max 1 (min 5 (9 : Int)) } : VentilationUnit).airflow ≤ 5) :=
  fan_speed_clamp.2 devState "dev1" 9 (SendOutcome.returns true) "dev1"
    { devUnit with airflow := max 1 (min 5 (9 : Int)) } (by decide)

/-- Claim C10: every command on an unregistered unit id returns `False`,
issues no remote call and leaves the state unchanged; the same holds for
the device-contacting commands when the API client is uninitialized. -/
theorem unknown_unit_guard :
    (∀ st uid mode tS sends, dictGet st.units uid = none →
        set_mode st uid mode tS sends = { ok := false, st := st, calls := 0 }) ∧
    (∀ st uid mode tm send, dictGet st.units uid = none →
        set_mode_with_time st uid mode tm send = { ok := false, st := st, calls := 0 }) ∧
    (∀ st uid x send, dictGet st.units uid = none →
        set_fan_speed st uid x send = { ok := false, st := st, calls := 0 }) ∧
    (∀ st uid t send, dictGet st.units uid = none →
        set_temperature st uid t send = { ok := false, st := st, calls := 0 }) ∧
    (∀ st uid mode tv, dictGet st.units uid = none →
        set_user_mode_time st uid mode tv = { ok := false, st := st, calls := 0 }) ∧
    (∀ st uid mode tS sends, st.hasApi = false →
        set_mode st uid mode tS sends = { ok := false, st := st, calls := 0 }) ∧
    (∀ st uid mode tm send, st.hasApi = false →
        set_mode_with_time st uid mode tm send = { ok := false, st := st, calls := 0 }) ∧
    (∀ st uid x send, st.hasApi = false →
        set_fan_speed st uid x send = { ok := false, st := st, calls := 0 }) ∧
    (∀ st uid t send, st.hasApi = false →
        set_temperature st uid t send = { ok := false, st := st, calls := 0 }) := by
  refine ⟨?_, ?_, ?_, ?_, ?_, ?_, ?_, ?_, ?_⟩
  · intro st uid mode tS sends h
    by_cases hm : mode ∈ timed_modes <;>
      simp [set_mode, set_mode_with_time, hm, h]
  · intro st uid mode tm send h
    simp [set_mode_with_time, h]
  · intro st uid x send h
    simp [set_fan_speed, h]
  · intro st uid t send h
    simp [set_temperature, h]
  · intro st uid mode tv h
    simp [set_user_mode_time, h]
  · intro st uid mode tS sends h
    by_cases hm : mode ∈ timed_modes <;>
      cases hu : dictGet st.units uid <;>
        simp [set_mode, set_mode_with_time, hm, hu, h]
  · intro st uid mode tm send h
    cases hu : dictGet st.units uid <;> simp [set_mode_with_time, hu, h]
  · intro st uid x send h
    cases hu : dictGet st.units uid <;> simp [set_fan_speed, hu, h]
  · intro st uid t send h
    cases hu : dictGet st.units uid <;> simp [set_temperature, hu, h]

/-- Witness for claim C10: storing a duration for an unknown unit id on
the sample state is a no-op returning `False`. -/
theorem unknown_unit_guard_witness :
    set_user_mode_time devState "ghost" "away" 5
      = { ok := false, st := devState, calls := 0 } :=
  unknown_unit_guard.2.2.2.2.1 devState "ghost" "away" 5 (by decide)

theorem fan_st_of_not_ok (st : CoordState) (uid : String) (x : Int)
    (send : SendOutcome) (h : (set_fan_speed st uid x send).ok = false) :
    (set_fan_speed st uid x send).st = st := by
  cases hu : dictGet st.units uid with
  | none => simp [set_fan_speed, hu]
  | some u0 =>
    cases hapi : st.hasApi with
    | false => simp [set_fan_speed, hu, hapi]
    | true =>
      cases send with
      | raises => simp [set_fan_speed, hu, hapi]
      | returns b =>
        cases b with
        | true => simp [set_fan_speed, hu, hapi] at h
        | false => simp [set_fan_speed, hu, hapi]

theorem temp_st_of_not_ok (st : CoordState) (uid : String) (t : Rat)
    (send : SendOutcome) (h : (set_temperature st uid t send).ok = false) :
    (set_temperature st uid t send).st = st := by
  cases hu : dictGet st.units uid with
  | none => simp [set_temperature, hu]
  | some u0 =>
    cases hapi : st.hasApi with
    | false => simp [set_temperature, hu, hapi]
    | true =>
      cases send with
      | raises => simp [set_temperature, hu, hapi]
      | returns b =>
        cases b with
        | true => simp [set_temperature, hu, hapi] at h
        | false => simp [set_temperature, hu, hapi]

/-- Claim C2: every command applies its optimistic update exactly when the
remote send returns success — the commanded mode, the clamped airflow
level, the temperature setpoint, and the resolved duration are visible in
the unit state immediately after the call — and on a failed or raising
send every command returns `False` with the state exactly unchanged. -/
theorem optimistic_update_law :
    (∀ st uid mode tm unit, dictGet st.units uid = some unit → st.hasApi = true →
      (set_mode_with_time st uid mode tm (ModeSend.returns true)).ok = true ∧
      modeOf (set_mode_with_time st uid mode tm (ModeSend.returns true)).st uid = some mode ∧
      (∀ tv, resolveTime unit st.config mode tm = some tv →
        get_mode_name_for_key mode ≠ "" →
        (dictGet (set_mode_with_time st uid mode tm (ModeSend.returns true)).st.units uid).map
            (fun u => dictGet u.user_mode_times (get_mode_name_for_key mode))
          = some (some tv))) ∧
    (∀ st uid mode tm send, send ≠ ModeSend.returns true →
      send ≠ ModeSend.typeErrorThen (some true) →
      (set_mode_with_time st uid mode tm send).ok = false ∧
      (set_mode_with_time st uid mode tm send).st = st) ∧
    (∀ st uid (x : Int) unit, dictGet st.units uid = some unit → st.hasApi = true →
      (set_fan_speed st uid x (SendOutcome.returns true)).ok = true ∧
      airflowOf (set_fan_speed st uid x (SendOutcome.returns true)).st uid
        = some (max 1 (min 5 x))) ∧
    (∀ st uid (x : Int) send, send ≠ SendOutcome.returns true →
      (set_fan_speed st uid x send).ok = false ∧ (set_fan_speed st uid x send).st = st) ∧
    (∀ st uid (t : Rat) unit, dictGet st.units uid = some unit → st.hasApi = true →
      (set_temperature st uid t (SendOutcome.returns true)).ok = true ∧
      (dictGet (set_temperature st uid t (SendOutcome.returns true)).st.units uid).map
          (fun u => dictGet u.temperatures "setpoint")
        = some (some t)) ∧
    (∀ st uid (t : Rat) send, send ≠ SendOutcome.returns true →
      (set_temperature st uid t send).ok = false ∧ (set_temperature st uid t send).st = st) ∧
    (∀ st uid mode tS sends n unit, mode ∉ timed_modes →
      dictGet st.units uid = some unit → st.hasApi = true →
      setModeAttempts sends 3 0 = (some true, n) →
      (set_mode st uid mode tS sends).ok = true ∧
      modeOf (set_mode st uid mode tS sends).st uid = some mode) ∧
    (∀ st uid mode tS sends res n, mode ∉ timed_modes →
      setModeAttempts sends 3 0 = (res, n) → res ≠ some true →
      (set_mode st uid mode tS sends).ok = false ∧
      (set_mode st uid mode tS sends).st = st) ∧
    (∀ st uid mode tS sends, mode ∈ timed_modes →
      set_mode st uid mode tS sends = set_mode_with_time st uid mode none tS) := by
  refine ⟨?_, ?_, ?_, ?_, ?_, ?_, ?_, ?_, ?_⟩
  · intro st uid mode tm unit hu hapi
    refine ⟨?_, ?_, ?_⟩
    · simp [set_mode_with_time, hu, hapi]
    · simp only [set_mode_with_time, hu, hapi, if_true, modeOf]
      rw [dictGet_modify_self, hu]
      cases hrt : resolveTime unit st.config mode tm <;>
        by_cases hk : get_mode_name_for_key mode = "" <;>
          simp [hrt, hk]
    · intro tv hrt hk
      simp only [set_mode_with_time, hu, hapi, if_true]
      rw [dictGet_modify_self, hu]
      simp [hrt, hk, dictGet_set_self]
  · intro st uid mode tm send h1 h2
    have hok : (set_mode_with_time st uid mode tm send).ok = false := by
      cases hu : dictGet st.units uid with
      | none => simp [set_mode_with_time, hu]
      | some unit =>
        cases hapi : st.hasApi with
        | false => simp [set_mode_with_time, hu, hapi]
        | true =>
          cases send with
          | returns b =>
            cases b with
            | true => exact absurd rfl h1
            | false => simp [set_mode_with_time, hu, hapi]
          | typeErrorThen ob =>
            cases ob with
            | none => simp [set_mode_with_time, hu, hapi]
            | some b =>
              cases b with
              | true => exact absurd rfl h2
              | false => simp [set_mode_with_time, hu, hapi]
          | raises => simp [set_mode_with_time, hu, hapi]
    exact ⟨hok, smwt_st_of_not_ok _ _ _ _ _ hok⟩
  · intro st uid x unit hu hapi
    constructor
    · simp [set_fan_speed, hu, hapi]
    · simp only [set_fan_speed, hu, hapi, if_true, airflowOf]
      rw [dictGet_modify_self, hu]
      simp
  · intro st uid x send hne
    have hok : (set_fan_speed st uid x send).ok = false := by
      cases hu : dictGet st.units uid with
      | none => simp [set_fan_speed, hu]
      | some u0 =>
        cases hapi : st.hasApi with
        | false => simp [set_fan_speed, hu, hapi]
        | true =>
          cases send with
          | raises => simp [set_fan_speed, hu, hapi]
          | returns b =>
            cases b with
            | true => exact absurd rfl hne
            | false => simp [set_fan_speed, hu, hapi]
    exact ⟨hok, fan_st_of_not_ok _ _ _ _ hok⟩
  · intro st uid t unit hu hapi
    constructor
    · simp [set_temperature, hu, hapi]
    · simp only [set_temperature, hu, hapi, if_true]
      rw [dictGet_modify_self, hu]
      simp [dictGet_set_self]
  · intro st uid t send hne
    have hok : (set_temperature st uid t send).ok = false := by
      cases hu : dictGet st.units uid with
      | none => simp [set_temperature, hu]
      | some u0 =>
        cases hapi : st.hasApi with
        | false => simp [set_temperature, hu, hapi]
        | true =>
          cases send with
          | raises => simp [set_temperature, hu, hapi]
          | returns b =>
            cases b with
            | true => exact absurd rfl hne
            | false => simp [set_temperature, hu, hapi]
    exact ⟨hok, temp_st_of_not_ok _ _ _ _ hok⟩
  · intro st uid mode tS sends n unit hm hu hapi hloop
    constructor
    · simp [set_mode, hm, hu, hapi, hloop]
    · simp only [set_mode, hm, if_neg, not_false_iff, hu, hapi, if_true, hloop, modeOf]
      rw [dictGet_modify_self, hu]
      simp
  · intro st uid mode tS sends res n hm hloop hres
    have hok : (set_mode st uid mode tS sends).ok = false := by
      simp only [set_mode, hm, if_neg, not_false_iff]
      cases hu : dictGet st.units uid with
      | none => simp [hu]
      | some u0 =>
        cases hapi : st.hasApi with
        | false => simp [hu, hapi]
        | true =>
          cases res with
          | none => simp [hu, hapi, hloop]
          | some b =>
            cases b with
            | true => exact absurd rfl hres
            | false => simp [hu, hapi, hloop]
    exact ⟨hok, set_mode_st_of_not_ok _ _ _ _ _ hok⟩
  · intro st uid mode tS sends hm
    simp [set_mode, hm]

/-- Witness for claim C2: a successful fan-speed send on the sample state
returns `True` and immediately shows the clamped level. -/
theorem optimistic_update_law_witness :
    (set_fan_speed devState "dev1" 2 (SendOutcome.returns true)).ok = true ∧
    airflowOf (set_fan_speed devState "dev1" 2 (SendOutcome.returns true)).st "dev1"
      = some (max 1 (min 5 (2 : Int))) :=
  optimistic_update_law.2.2.1 devState "dev1" 2 devUnit (by decide) rfl

/-- Claim C3: activating a timed mode without an explicit duration
resolves the duration in priority order — the locally stored value for
that mode wins, else the configured default converted to minutes, else
nothing — and a successful activation records the resolved duration into
the unit's mode-duration mapping. -/
theorem duration_resolution_priority :
    (∀ (unit : VentilationUnit) (cfgOpt : Option (List (String × Nat))) (mode D1 : Nat),
      mode ∈ timed_modes →
      dictGet unit.user_mode_times (get_mode_name_for_key mode) = some D1 →
      resolveTime unit cfgOpt mode none = some D1) ∧
    (∀ (unit : VentilationUnit) (cfg : List (String × Nat)) (mode : Nat),
      mode ∈ timed_modes →
      dictGet unit.user_mode_times (get_mode_name_for_key mode) = none →
      resolveTime unit (some cfg) mode none
        = (modeToDurationKey mode).bind
            (fun key => (dictGet cfg key).map (fun v => convert_duration_to_minutes key v))) ∧
    (∀ (unit : VentilationUnit) (mode : Nat), mode ∈ timed_modes →
      dictGet unit.user_mode_times (get_mode_name_for_key mode) = none →
      resolveTime unit none mode none = none) ∧
    (∀ st uid mode unit tv, dictGet st.units uid = some unit → st.hasApi = true →
      resolveTime unit st.config mode none = some tv →
      get_mode_name_for_key mode ≠ "" →
      (dictGet (set_mode_with_time st uid mode none (ModeSend.returns true)).st.units uid).map
          (fun u => dictGet u.user_mode_times (get_mode_name_for_key mode))
        = some (some tv)) := by
  refine ⟨?_, ?_, ?_, ?_⟩
  · intro unit cfgOpt mode D1 hm hstored
    simp only [timed_modes, List.mem_cons, List.mem_singleton, List.not_mem_nil, or_false] at hm
    rcases hm with rfl | rfl | rfl | rfl | rfl <;>
      simp_all [resolveTime, get_mode_name_for_key,
        MODE_HOLIDAY, MODE_AWAY, MODE_FIREPLACE, MODE_REFRESH, MODE_CROWDED]
  · intro unit cfg mode hm hstored
    simp only [timed_modes, List.mem_cons, List.mem_singleton, List.not_mem_nil, or_false] at hm
    rcases hm with rfl | rfl | rfl | rfl | rfl <;>
      · simp_all [resolveTime, get_mode_name_for_key, modeToDurationKey,
          MODE_HOLIDAY, MODE_AWAY, MODE_FIREPLACE, MODE_REFRESH, MODE_CROWDED]
        cases dictGet cfg _ <;> simp
  · intro unit mode hm hstored
    simp only [timed_modes, List.mem_cons, List.mem_singleton, List.not_mem_nil, or_false] at hm
    rcases hm with rfl | rfl | rfl | rfl | rfl <;>
      simp_all [resolveTime, get_mode_name_for_key,
        MODE_HOLIDAY, MODE_AWAY, MODE_FIREPLACE, MODE_REFRESH, MODE_CROWDED]
  · intro st uid mode unit tv hu hapi hrt hk
    simp only [set_mode_with_time, hu, hapi, if_true]
    rw [dictGet_modify_self, hu]
    simp [hrt, hk, dictGet_set_self]

/-- Witness for claim C3: on the sample unit the stored 120 minutes win
over the configured 3-hour default for Away; with the stored value absent
the configured default resolves to 180 minutes. -/
theorem duration_resolution_priority_witness :
    resolveTime devUnit (some [(CONF_DURATION_AWAY, 3)]) MODE_AWAY none = some 120 ∧
    resolveTime { devUnit with user_mode_times := [] }
        (some [(CONF_DURATION_AWAY, 3)]) MODE_AWAY none
      = (modeToDurationKey MODE_AWAY).bind
          (fun key =>
            (dictGet [(CONF_DURATION_AWAY, 3)] key).map
              (fun v => convert_duration_to_minutes key v)) :=
  ⟨duration_resolution_priority.1 devUnit (some [(CONF_DURATION_AWAY, 3)]) MODE_AWAY 120
      (by decide) (by decide),
    duration_resolution_priority.2.1 { devUnit with user_mode_times := [] }
      [(CONF_DURATION_AWAY, 3)] MODE_AWAY (by decide) (by decide)⟩

theorem smwt_airflow_of (st : CoordState) (uid : String) (mode : Nat)
    (tm : Option Nat) (send : ModeSend) (id : String) :
    airflowOf (set_mode_with_time st uid mode tm send).st id = airflowOf st id := by
  cases hu : dictGet st.units uid with
  | none => simp [set_mode_with_time, hu]
  | some unit =>
    cases hapi : st.hasApi with
    | false => simp [set_mode_with_time, hu, hapi]
    | true =>
      cases send with
      | returns b =>
        cases b with
        | false => simp [set_mode_with_time, hu, hapi]
        | true =>
          simp only [set_mode_with_time, hu, hapi, if_true, airflowOf]
          by_cases hid : uid = id
          · subst hid
            rw [dictGet_modify_self, hu]
            cases hrt : resolveTime unit st.config mode tm <;>
              by_cases hk : get_mode_name_for_key mode = "" <;> simp [hrt, hk]
          · rw [dictGet_modify_ne _ _ _ _ hid]
      | typeErrorThen ob =>
        cases ob with
        | none => simp [set_mode_with_time, hu, hapi]
        | some b =>
          cases b with
          | false => simp [set_mode_with_time, hu, hapi]
          | true =>
            simp only [set_mode_with_time, hu, hapi, if_true, airflowOf]
            exact dictGet_modify_map _ _ _ _ _ (fun b => rfl)
      | raises => simp [set_mode_with_time, hu, hapi]

set_option maxRecDepth 4000

theorem manualTried_ite (c : Prop) [Decidable c] (a b : SelOut) :
    (if c then a else b).manualTried = if c then a.manualTried else b.manualTried := by
  by_cases h : c <;> simp [h]

theorem fanTried_ite (c : Prop) [Decidable c] (a b : SelOut) :
    (if c then a else b).fanTried = if c then a.fanTried else b.fanTried := by
  by_cases h : c <;> simp [h]

/-- Claim C5: fan-speed commands never change any unit's mode; mode
commands to a non-Manual mode never change any unit's airflow level; and
in the airflow-level select flow, choosing a manual level while not in
Manual mode first issues a Manual-mode command, aborting with the state
exactly unchanged (the fan-speed command never issued) when that switch
fails, and issuing the fan-speed command only when it succeeds. -/
theorem mode_fan_orthogonality :
    (∀ st uid (x : Int) send id,
      modeOf (set_fan_speed st uid x send).st id = modeOf st id) ∧
    (∀ st uid mode tS sends id, mode ≠ MODE_MANUAL →
      airflowOf (set_mode st uid mode tS sends).st id = airflowOf st id) ∧
    (∀ st uid option unit tS sends fanSend,
      option ∈ ["Low", "Normal", "High"] →
      dictGet st.units uid = some unit →
      unit.user_mode ≠ MODE_MANUAL →
      (async_select_option st uid option tS sends fanSend).manualTried = true ∧
      ((set_mode st uid MODE_MANUAL tS sends).ok = false →
        async_select_option st uid option tS sends fanSend
          = { st := st, manualTried := true, fanTried := false }) ∧
      ((set_mode st uid MODE_MANUAL tS sends).ok = true →
        (async_select_option st uid option tS sends fanSend).fanTried = true)) ∧
    (∀ st uid option unit tS sends fanSend,
      option ∈ ["Low", "Normal", "High"] →
      dictGet st.units uid = some unit →
      unit.user_mode = MODE_MANUAL →
      (async_select_option st uid option tS sends fanSend).manualTried = false ∧
      (async_select_option st uid option tS sends fanSend).fanTried = true) := by
  refine ⟨?_, ?_, ?_, ?_⟩
  · intro st uid x send id
    cases hu : dictGet st.units uid with
    | none => simp [set_fan_speed, hu]
    | some u0 =>
      cases hapi : st.hasApi with
      | false => simp [set_fan_speed, hu, hapi]
      | true =>
        cases send with
        | raises => simp [set_fan_speed, hu, hapi]
        | returns b =>
          cases b with
          | false => simp [set_fan_speed, hu, hapi]
          | true =>
            simp only [set_fan_speed, hu, hapi, if_true, modeOf]
            exact dictGet_modify_map _ _ _ _ _ (fun b => rfl)
  · intro st uid mode tS sends id hmode
    by_cases hm : mode ∈ timed_modes
    · simp only [set_mode, hm, if_pos]
      exact smwt_airflow_of st uid mode none tS id
    · simp only [set_mode, hm, if_neg, not_false_iff]
      cases hu : dictGet st.units uid with
      | none => simp [hu]
      | some u0 =>
        cases hapi : st.hasApi with
        | false => simp [hu, hapi]
        | true =>
          rcases hl : setModeAttempts sends 3 0 with ⟨res, n⟩
          cases res with
          | none => simp [hu, hapi, hl]
          | some b =>
            cases b with
            | false => simp [hu, hapi, hl]
            | true =>
              simp only [hu, hapi, if_true, hl, airflowOf]
              exact dictGet_modify_map _ _ _ _ _ (fun b => rfl)
  · intro st uid option unit tS sends fanSend hopt hu hmode
    simp only [List.mem_cons, List.not_mem_nil, or_false] at hopt
    rcases hopt with rfl | rfl | rfl
    · refine ⟨?_, ?_, ?_⟩
      · simp [async_select_option, AIRFLOW_SELECTABLE_OPTIONS, airflowNameToLevel,
          hu, hmode, manualTried_ite, fanTried_ite, ite_self]
      · intro hok
        simp [async_select_option, AIRFLOW_SELECTABLE_OPTIONS, airflowNameToLevel,
          hu, hmode, hok, set_mode_st_of_not_ok _ _ _ _ _ hok]
      · intro hok
        simp [async_select_option, AIRFLOW_SELECTABLE_OPTIONS, airflowNameToLevel,
          hu, hmode, hok, manualTried_ite, fanTried_ite, ite_self]
    · refine ⟨?_, ?_, ?_⟩
      · simp [async_select_option, AIRFLOW_SELECTABLE_OPTIONS, airflowNameToLevel,
          hu, hmode, manualTried_ite, fanTried_ite, ite_self]
      · intro hok
        simp [async_select_option, AIRFLOW_SELECTABLE_OPTIONS, airflowNameToLevel,
          hu, hmode, hok, set_mode_st_of_not_ok _ _ _ _ _ hok]
      · intro hok
        simp [async_select_option, AIRFLOW_SELECTABLE_OPTIONS, airflowNameToLevel,
          hu, hmode, hok, manualTried_ite, fanTried_ite, ite_self]
    · refine ⟨?_, ?_, ?_⟩
      · simp [async_select_option, AIRFLOW_SELECTABLE_OPTIONS, airflowNameToLevel,
          hu, hmode, manualTried_ite, fanTried_ite, ite_self]
      · intro hok
        simp [async_select_option, AIRFLOW_SELECTABLE_OPTIONS, airflowNameToLevel,
          hu, hmode, hok, set_mode_st_of_not_ok _ _ _ _ _ hok]
      · intro hok
        simp [async_select_option, AIRFLOW_SELECTABLE_OPTIONS, airflowNameToLevel,
          hu, hmode, hok, manualTried_ite, fanTried_ite, ite_self]
  · intro st uid option unit tS sends fanSend hopt hu hmode
    simp only [List.mem_cons, List.not_mem_nil, or_false] at hopt
    rcases hopt with rfl | rfl | rfl
    · constructor <;>
        simp [async_select_option, AIRFLOW_SELECTABLE_OPTIONS, airflowNameToLevel,
          hu, hmode, manualTried_ite, fanTried_ite, ite_self]
    · constructor <;>
        simp [async_select_option, AIRFLOW_SELECTABLE_OPTIONS, airflowNameToLevel,
          hu, hmode, manualTried_ite, fanTried_ite, ite_self]
    · constructor <;>
        simp [async_select_option, AIRFLOW_SELECTABLE_OPTIONS, airflowNameToLevel,
          hu, hmode, manualTried_ite, fanTried_ite, ite_self]

/-- Witness for claim C5: on the sample state (in Auto mode), selecting
`Low` with a failing Manual switch aborts without touching the state. -/
theorem mode_fan_orthogonality_witness :
    (async_select_option devState "dev1" "Low" ModeSend.raises
        (fun _ => CallOutcome.raises "err unauthorized") SendOutcome.raises).manualTried
      = true ∧
    ((set_mode devState "dev1" MODE_MANUAL ModeSend.raises
        (fun _ => CallOutcome.raises "err unauthorized")).ok = false →
      async_select_option devState "dev1" "Low" ModeSend.raises
          (fun _ => CallOutcome.raises "err unauthorized") SendOutcome.raises
        = { st := devState, manualTried := true, fanTried := false }) ∧
    ((set_mode devState "dev1" MODE_MANUAL ModeSend.raises
        (fun _ => CallOutcome.raises "err unauthorized")).ok = true →
      (async_select_option devState "dev1" "Low" ModeSend.raises
          (fun _ => CallOutcome.raises "err unauthorized") SendOutcome.raises).fanTried
        = true) :=
  mode_fan_orthogonality.2.2.1 devState "dev1" "Low" devUnit ModeSend.raises
    (fun _ => CallOutcome.raises "err unauthorized") SendOutcome.raises
    (by decide) (by decide) (by decide)

/-- Claim C8: the push handler recognizes exactly the structured
status-update shape (device id in `properties.id`) and the flat shape
(device id in top-level `identifier`); a recognized message with a known
id merges into exactly that one unit (all other units untouched) and
schedules an immediate refresh; a message whose extracted id is missing,
falsy or unknown — or which matches neither shape — changes nothing and
schedules nothing. -/
theorem ws_message_dispatch :
    (∀ units msg upd id,
      msg.action = some "DEVICE_STATUS_UPDATE" → msg.type = some "SYSTEM_EVENT" →
      msg.properties_id = some id → id ≠ "" → (dictGet units id).isSome = true →
      handle_ws_message units msg upd
        = (dictModify units id (fun u => upd u msg), true) ∧
      (∀ id2, id2 ≠ id →
        dictGet (handle_ws_message units msg upd).1 id2 = dictGet units id2)) ∧
    (∀ units msg upd,
      (msg.action = some "DEVICE_STATUS_UPDATE" ∧ msg.type = some "SYSTEM_EVENT") →
      (msg.properties_id = none ∨ msg.properties_id = some "" ∨
        (∀ id, msg.properties_id = some id → dictGet units id = none)) →
      handle_ws_message units msg upd = (units, false)) ∧
    (∀ units msg upd id,
      ¬(msg.action = some "DEVICE_STATUS_UPDATE" ∧ msg.type = some "SYSTEM_EVENT") →
      msg.identifier = some id → (dictGet units id).isSome = true →
      handle_ws_message units msg upd
        = (dictModify units id (fun u => upd u msg), true) ∧
      (∀ id2, id2 ≠ id →
        dictGet (handle_ws_message units msg upd).1 id2 = dictGet units id2)) ∧
    (∀ units msg upd,
      ¬(msg.action = some "DEVICE_STATUS_UPDATE" ∧ msg.type = some "SYSTEM_EVENT") →
      (msg.identifier = none ∨
        (∀ id, msg.identifier = some id → dictGet units id = none)) →
      handle_ws_message units msg upd = (units, false)) := by
  refine ⟨?_, ?_, ?_, ?_⟩
  · intro units msg upd id ha ht hp hne hsome
    have heq : handle_ws_message units msg upd
        = (dictModify units id (fun u => upd u msg), true) := by
      simp [handle_ws_message, ha, ht, hp, hne, hsome]
    refine ⟨heq, ?_⟩
    intro id2 hne2
    rw [heq]
    exact dictGet_modify_ne _ _ _ _ (Ne.symm hne2)
  · intro units msg upd hcond hdrop
    cases hp : msg.properties_id with
    | none => simp [handle_ws_message, hcond.1, hcond.2, hp]
    | some id =>
      rcases hdrop with h | h | h
      · rw [hp] at h
        exact absurd h (Option.some_ne_none id)
      · rw [hp] at h
        injection h with h2
        subst h2
        simp [handle_ws_message, hcond.1, hcond.2, hp]
      · have hl := h id hp
        simp [handle_ws_message, hcond.1, hcond.2, hp, hl]
  · intro units msg upd id hns hid hsome
    have heq : handle_ws_message units msg upd
        = (dictModify units id (fun u => upd u msg), true) := by
      simp [handle_ws_message, hns, hid, hsome]
    refine ⟨heq, ?_⟩
    intro id2 hne2
    rw [heq]
    exact dictGet_modify_ne _ _ _ _ (Ne.symm hne2)
  · intro units msg upd hns hdrop
    cases hi : msg.identifier with
    | none => simp [handle_ws_message, hns, hi]
    | some id =>
      rcases hdrop with h | h
      · rw [hi] at h
        exact absurd h (Option.some_ne_none id)
      · have hl := h id hi
        simp [handle_ws_message, hns, hi, hl]

def wsMsg : WsMessage :=
  { action := some "DEVICE_STATUS_UPDATE", type := some "SYSTEM_EVENT",
    properties_id := some "dev1", identifier := none }

/-- Witness for claim C8: a structured status update for the known unit
`dev1` merges into it and schedules a refresh. -/
theorem ws_message_dispatch_witness :
    handle_ws_message devState.units wsMsg (fun u _ => u)
      = (dictModify devState.units "dev1" (fun u => u), true) :=
  (ws_message_dispatch.1 devState.units wsMsg (fun u _ => u) "dev1"
    rfl rfl rfl (by decide) (by decide)).1

/-- Claim C4: in a cycle where authentication and discovery already
succeeded, a unit whose fetch fails after retries is skipped with its
state as-is while every other unit is fetched and merged, the cycle
completes without raising and without touching availability; by contrast,
a failing authentication or discovery step surfaces as a refresh failure
(`UpdateFailed`) and marks the coordinator unavailable. -/
theorem refresh_cycle_degradation :
    (∀ (σ : Type) (st : CoordState) (env : CycleEnv σ),
      st.hasApi = true → env.tokenValid = true →
      (asyncUpdateData st env).1 = none ∧
      (asyncUpdateData st env).2.available = st.available ∧
      (∀ id u, (id, u) ∈ st.units →
        (env.fetchPoll id = none → (id, u) ∈ (asyncUpdateData st env).2.units) ∧
        (∀ s, env.fetchPoll id = some s →
          (id, env.update_from_api u s) ∈ (asyncUpdateData st env).2.units))) ∧
    (∀ (σ : Type) (st : CoordState) (env : CycleEnv σ) (m : String),
      st.hasApi = false → env.authenticate = Except.error m →
      asyncUpdateData st env = (some m, { st with available := false })) ∧
    (∀ (σ : Type) (st : CoordState) (env : CycleEnv σ) (m : String),
      st.hasApi = false → env.authenticate = Except.ok () →
      env.getDevices = Except.error m →
      asyncUpdateData st env = (some m, { st with hasApi := true, available := false })) := by
  refine ⟨?_, ?_, ?_⟩
  · intro σ st env hapi htok
    have h1 : asyncUpdateData st env = (none, pollPhase st env) := by
      simp [asyncUpdateData, hapi, refreshPhase, htok]
    refine ⟨by rw [h1], by rw [h1]; rfl, ?_⟩
    intro id u hmem
    constructor
    · intro hf
      rw [h1]
      have hmm := List.mem_map_of_mem
        (fun p : String × VentilationUnit =>
          match env.fetchPoll p.1 with
          | some s => (p.1, env.update_from_api p.2 s)
          | none => p) hmem
      simp only [hf] at hmm
      exact hmm
    · intro s hf
      rw [h1]
      have hmm := List.mem_map_of_mem
        (fun p : String × VentilationUnit =>
          match env.fetchPoll p.1 with
          | some s => (p.1, env.update_from_api p.2 s)
          | none => p) hmem
      simp only [hf] at hmm
      exact hmm
  · intro σ st env m hnoapi hauth
    simp [asyncUpdateData, hnoapi, discoverPhase, hauth]
  · intro σ st env m hnoapi hauth hdev
    simp [asyncUpdateData, hnoapi, discoverPhase, hauth, hdev]

def devEnv : CycleEnv Unit :=
  { authenticate := Except.ok (), getDevices := Except.error "server busy",
    mkUnit := fun _ _ => devUnit, fetchInit := fun _ => none,
    update_from_api := fun u _ => u, tokenValid := true,
    refreshToken := Except.ok (), fetchPoll := fun _ => none }

/-- Witness for claim C4: on the sample state with the API already set and
a valid token, the cycle completes without raising and availability is
untouched. -/
theorem refresh_cycle_degradation_witness :
    (asyncUpdateData devState devEnv).1 = none ∧
    (asyncUpdateData devState devEnv).2.available = devState.available :=
  ⟨(refresh_cycle_degradation.1 Unit devState devEnv rfl rfl).1,
    (refresh_cycle_degradation.1 Unit devState devEnv rfl rfl).2.1⟩

theorem mergeTimes_get (mt : List (String × Nat)) (m : List (String × Nat)) (k : String) :
    dictGet (mergeTimes mt m) k
      = match lastGet mt k with
        | some v => some v
        | none => dictGet m k := by
  induction mt generalizing m with
  | nil => simp [mergeTimes, lastGet]
  | cons p t ih =>
    have hfold : mergeTimes (p :: t) m = mergeTimes t (dictSet m p.1 p.2) := rfl
    rw [hfold, ih]
    simp only [lastGet]
    cases hl : lastGet t k with
    | some v => rfl
    | none =>
      by_cases hp : p.1 = k
      · rw [if_pos hp]
        subst hp
        simp [dictGet_set_self]
      · rw [if_neg hp, dictGet_set_ne _ _ _ _ hp]

/-- How the whole blob transforms one unit's `user_mode_times`: the merges
of every blob entry whose unit id matches, applied in order. -/
def blobTimesFor (blob : List (String × List (String × Nat))) (id : String)
    (m : List (String × Nat)) : List (String × Nat) :=
  blob.foldl (fun acc e => if e.1 = id then mergeTimes e.2 acc else acc) m

theorem load_lookup (blob : List (String × List (String × Nat)))
    (units : List (String × VentilationUnit)) (id : String) :
    dictGet (async_load_stored_time_values units (some blob)) id
      = (dictGet units id).map
          (fun u => { u with user_mode_times := blobTimesFor blob id u.user_mode_times }) := by
  induction blob generalizing units with
  | nil =>
    simp only [async_load_stored_time_values, List.foldl, blobTimesFor]
    cases dictGet units id <;> rfl
  | cons e rest ih =>
    have h0 : async_load_stored_time_values units (some (e :: rest))
        = async_load_stored_time_values (loadStep units e) (some rest) := rfl
    rw [h0, ih]
    by_cases he : e.1 = id
    · subst he
      cases hg : dictGet units e.1 with
      | none =>
        have hstep : loadStep units e = units := by simp [loadStep, hg]
        rw [hstep, hg]
        simp
      | some u =>
        have hstep : loadStep units e
            = dictModify units e.1
                (fun u => { u with user_mode_times := mergeTimes e.2 u.user_mode_times }) := by
          simp [loadStep, hg]
        rw [hstep, dictGet_modify_self, hg]
        have hb : blobTimesFor (e :: rest) e.1 u.user_mode_times
            = blobTimesFor rest e.1 (mergeTimes e.2 u.user_mode_times) := by
          simp [blobTimesFor]
        simp only [Option.map_some']
        rw [hb]
    · have hdg : dictGet (loadStep units e) id = dictGet units id := by
        by_cases hg : (dictGet units e.1).isSome
        · simp [loadStep, hg, dictGet_modify_ne _ _ _ _ he]
        · simp [loadStep, hg]
      rw [hdg]
      have hb : ∀ m, blobTimesFor (e :: rest) id m = blobTimesFor rest id m := by
        intro m
        simp [blobTimesFor, he]
      cases dictGet units id <;> simp [hb]

theorem blobTimesFor_get (blob : List (String × List (String × Nat))) (id : String)
    (m : List (String × Nat)) (k : String) :
    dictGet (blobTimesFor blob id m) k
      = match blobLastFor blob id k with
        | some v => some v
        | none => dictGet m k := by
  induction blob generalizing m with
  | nil => simp [blobTimesFor, blobLastFor]
  | cons e rest ih =>
    have h0 : blobTimesFor (e :: rest) id m
        = blobTimesFor rest id (if e.1 = id then mergeTimes e.2 m else m) := by
      simp [blobTimesFor]
    rw [h0, ih]
    simp only [blobLastFor]
    cases hbl : blobLastFor rest id k with
    | some v => rfl
    | none =>
      by_cases he : e.1 = id
      · rw [if_pos he, if_pos he, mergeTimes_get]
      · rw [if_neg he, if_neg he]

theorem blobLastFor_none (blob : List (String × List (String × Nat))) (id k : String)
    (h : ∀ mt, (id, mt) ∈ blob → lastGet mt k = none) :
    blobLastFor blob id k = none := by
  induction blob with
  | nil => rfl
  | cons e rest ih =>
    simp only [blobLastFor]
    rw [ih (fun mt hm => h mt (List.mem_cons_of_mem _ hm))]
    show (if e.1 = id then lastGet e.2 k else none) = none
    by_cases he : e.1 = id
    · rw [if_pos he]
      have hmem : (id, e.2) ∈ e :: rest := by
        rw [← he, Prod.mk.eta]
        exact List.mem_cons_self _ _
      exact h e.2 hmem
    · rw [if_neg he]

/-- The duration stored for mode key `k` of the unit registered under
`id`, if both exist. -/
def unitTime (units : List (String × VentilationUnit)) (id k : String) : Option Nat :=
  match dictGet units id with
  | some u => dictGet u.user_mode_times k
  | none => none

/-- Claim C7: the persisted-duration restore is idempotent — loading the
same blob twice leaves exactly the per-unit mode-duration mappings of
loading it once — and non-destructive: a mode key the blob never writes
for a unit keeps the value it had before the load. -/
theorem duration_merge_idempotent :
    ∀ units blob id k,
      unitTime (async_load_stored_time_values
          (async_load_stored_time_values units (some blob)) (some blob)) id k
        = unitTime (async_load_stored_time_values units (some blob)) id k ∧
      ((∀ mt, (id, mt) ∈ blob → lastGet mt k = none) →
        unitTime (async_load_stored_time_values units (some blob)) id k
          = unitTime units id k) := by
  intro units blob id k
  constructor
  · simp only [unitTime]
    rw [load_lookup, load_lookup]
    cases hg : dictGet units id with
    | none => rfl
    | some u =>
      simp only [Option.map_some']
      rw [blobTimesFor_get, blobTimesFor_get]
      cases hbl : blobLastFor blob id k <;> rfl
  · intro habs
    simp only [unitTime]
    rw [load_lookup]
    cases hg : dictGet units id with
    | none => rfl
    | some u =>
      simp only [Option.map_some']
      rw [blobTimesFor_get, blobLastFor_none blob id k habs]

/-- Witness for claim C7: loading a one-entry blob for `dev1` twice equals
loading it once on the `holiday` key, and the `away` key (absent from the
blob) keeps its prior value. -/
theorem duration_merge_idempotent_witness :
    unitTime (async_load_stored_time_values
        (async_load_stored_time_values devState.units (some [("dev1", [("holiday", 30)])]))
        (some [("dev1", [("holiday", 30)])])) "dev1" "holiday"
      = unitTime (async_load_stored_time_values devState.units
          (some [("dev1", [("holiday", 30)])])) "dev1" "holiday" ∧
    unitTime (async_load_stored_time_values devState.units
        (some [("dev1", [("holiday", 30)])])) "dev1" "away"
      = unitTime devState.units "dev1" "away" :=
  ⟨(duration_merge_idempotent devState.units [("dev1", [("holiday", 30)])] "dev1" "holiday").1,
    (duration_merge_idempotent devState.units [("dev1", [("holiday", 30)])] "dev1" "away").2
      (by
        intro mt hm
        have hmt : mt = [("holiday", 30)] := by simpa using hm
        rw [hmt]
        decide)⟩

/-! ## The UnitState invariant (spec section 3) -/

def modeValues : List Nat :=
  [ MODE_AUTO, MODE_MANUAL, MODE_CROWDED, MODE_REFRESH, MODE_FIREPLACE,
    MODE_AWAY, MODE_HOLIDAY]

def timedKeys : List String := ["holiday", "away", "fireplace", "refresh", "crowded"]

/-- The spec's UnitState invariant: airflow in `[1, 5]`, mode one of the
seven named values, duration keys among the five timed-mode names. -/
def UnitInv (u : VentilationUnit) : Prop :=
  1 ≤ u.airflow ∧ u.airflow ≤ 5 ∧ u.user_mode ∈ modeValues ∧
    ∀ p ∈ u.user_mode_times, p.1 ∈ timedKeys

/-- The invariant over every registered unit. -/
def UnitsInv (us : List (String × VentilationUnit)) : Prop :=
  ∀ p ∈ us, UnitInv p.2

theorem dictGet_mem {β : Type} {m : List (String × β)} {k : String} {v : β}
    (h : dictGet m k = some v) : (k, v) ∈ m := by
  induction m with
  | nil => simp [dictGet] at h
  | cons p t ih =>
    by_cases hp : p.1 = k
    · simp only [dictGet] at h
      rw [if_pos hp] at h
      injection h with h2
      rw [← h2, ← hp, Prod.mk.eta]
      exact List.mem_cons_self _ _
    · simp only [dictGet] at h
      rw [if_neg hp] at h
      exact List.mem_cons_of_mem _ (ih h)

theorem UnitsInv_modify {us : List (String × VentilationUnit)} {k : String}
    {f : VentilationUnit → VentilationUnit}
    (hf : ∀ u, UnitInv u → UnitInv (f u)) (hinv : UnitsInv us) :
    UnitsInv (dictModify us k f) := by
  intro p hp
  rcases mem_dictModify hp with h | ⟨v, hv, hpe⟩
  · exact hinv p h
  · have h2 : UnitInv v := hinv (k, v) hv
    rw [hpe]
    exact hf v h2

theorem mode_key_cases (mode : Nat) :
    get_mode_name_for_key mode = "" ∨ get_mode_name_for_key mode ∈ timedKeys := by
  unfold get_mode_name_for_key
  split_ifs <;> simp [timedKeys]

theorem mem_mergeTimes {mt m : List (String × Nat)} {p : String × Nat}
    (h : p ∈ mergeTimes mt m) : p ∈ m ∨ p.1 ∈ mt.map Prod.fst := by
  induction mt generalizing m with
  | nil => exact Or.inl h
  | cons q t ih =>
    have h0 : mergeTimes (q :: t) m = mergeTimes t (dictSet m q.1 q.2) := rfl
    rw [h0] at h
    rcases ih h with h2 | h2
    · rcases mem_dictSet h2 with h3 | h3
      · exact Or.inl h3
      · right
        rw [h3]
        simp
    · right
      simp [h2]

theorem smwt_preserves (st : CoordState) (uid : String) (mode : Nat)
    (tm : Option Nat) (send : ModeSend) (hmode : mode ∈ modeValues)
    (hinv : UnitsInv st.units) :
    UnitsInv (set_mode_with_time st uid mode tm send).st.units := by
  cases hu : dictGet st.units uid with
  | none => simpa [set_mode_with_time, hu] using hinv
  | some unit =>
    have hunit : UnitInv unit := hinv (uid, unit) (dictGet_mem hu)
    cases hapi : st.hasApi with
    | false => simpa [set_mode_with_time, hu, hapi] using hinv
    | true =>
      cases send with
      | returns b =>
        cases b with
        | false => simpa [set_mode_with_time, hu, hapi] using hinv
        | true =>
          simp only [set_mode_with_time, hu, hapi, if_true]
          apply UnitsInv_modify
          · intro u _
            cases hrt : resolveTime unit st.config mode tm with
            | none =>
              simp only [hrt]
              exact ⟨hunit.1, hunit.2.1, hmode, hunit.2.2.2⟩
            | some tv =>
              by_cases hk : get_mode_name_for_key mode = ""
              · simp only [hrt, if_pos hk]
                exact ⟨hunit.1, hunit.2.1, hmode, hunit.2.2.2⟩
              · simp only [hrt, if_neg hk]
                refine ⟨hunit.1, hunit.2.1, hmode, ?_⟩
                intro p hp
                rcases mem_dictSet hp with h | h
                · exact hunit.2.2.2 p h
                · rw [h]
                  rcases mode_key_cases mode with h2 | h2
                  · exact absurd h2 hk
                  · exact h2
          · exact hinv
      | typeErrorThen ob =>
        cases ob with
        | none => simpa [set_mode_with_time, hu, hapi] using hinv
        | some b =>
          cases b with
          | false => simpa [set_mode_with_time, hu, hapi] using hinv
          | true =>
            simp only [set_mode_with_time, hu, hapi, if_true]
            apply UnitsInv_modify
            · intro u hu2
              exact ⟨hu2.1, hu2.2.1, hmode, hu2.2.2.2⟩
            · exact hinv
      | raises => simpa [set_mode_with_time, hu, hapi] using hinv

theorem loadStep_preserves (us : List (String × VentilationUnit))
    (e : String × List (String × Nat))
    (hkeys : ∀ p ∈ e.2, p.1 ∈ timedKeys) (hinv : UnitsInv us) :
    UnitsInv (loadStep us e) := by
  unfold loadStep
  by_cases hg : (dictGet us e.1).isSome = true
  · rw [if_pos hg]
    apply UnitsInv_modify
    · intro u hu
      refine ⟨hu.1, hu.2.1, hu.2.2.1, ?_⟩
      intro p hp
      rcases mem_mergeTimes hp with h | h
      · exact hu.2.2.2 p h
      · rcases List.mem_map.mp h with ⟨q, hq, hq2⟩
        rw [← hq2]
        exact hkeys q hq
    · exact hinv
  · rw [if_neg hg]
    exact hinv

/-- Counterexample for claim C6 as stated: `set_user_mode_time` performs
no validation of the mode name, so storing a duration under the key
`bogus` succeeds on an invariant-satisfying state and leaves a
mode-duration key outside the five timed-mode names. -/
theorem state_invariant_counterexample :
    UnitInv devUnit ∧
    (set_user_mode_time devState "dev1" "bogus" 5).ok = true ∧
    ¬ UnitsInv (set_user_mode_time devState "dev1" "bogus" 5).st.units := by
  refine ⟨?_, ?_, ?_⟩
  · unfold UnitInv
    decide
  · decide
  · unfold UnitsInv UnitInv
    decide

/-- Claim C6 (amended): the invariant — airflow in `[1, 5]`, mode among
the seven values, duration keys among the five timed-mode names — is
preserved by `set_fan_speed` unconditionally, and by the other mutations
under the input validation the callers enforce: mode commands carry one of
the seven mode values, `set_user_mode_time` carries one of the five
timed-mode names (the service schema restriction), and every key of a
restored blob is one of the five timed-mode names. -/
theorem state_invariant_preserved :
    (∀ st uid (x : Int) send, UnitsInv st.units →
      UnitsInv (set_fan_speed st uid x send).st.units) ∧
    (∀ st uid mode tm send, mode ∈ modeValues → UnitsInv st.units →
      UnitsInv (set_mode_with_time st uid mode tm send).st.units) ∧
    (∀ st uid mode tS sends, mode ∈ modeValues → UnitsInv st.units →
      UnitsInv (set_mode st uid mode tS sends).st.units) ∧
    (∀ st uid mode tv, mode ∈ timedKeys → UnitsInv st.units →
      UnitsInv (set_user_mode_time st uid mode tv).st.units) ∧
    (∀ blob units, (∀ e ∈ blob, ∀ p ∈ e.2, p.1 ∈ timedKeys) → UnitsInv units →
      UnitsInv (async_load_stored_time_values units (some blob))) := by
  refine ⟨?_, ?_, ?_, ?_, ?_⟩
  · intro st uid x send hinv
    cases hu : dictGet st.units uid with
    | none => simpa [set_fan_speed, hu] using hinv
    | some u0 =>
      cases hapi : st.hasApi with
      | false => simpa [set_fan_speed, hu, hapi] using hinv
      | true =>
        cases send with
        | raises => simpa [set_fan_speed, hu, hapi] using hinv
        | returns b =>
          cases b with
          | false => simpa [set_fan_speed, hu, hapi] using hinv
          | true =>
            simp only [set_fan_speed, hu, hapi, if_true]
            apply UnitsInv_modify
            · intro u hu2
              exact ⟨(clamp_bounds x).1, (clamp_bounds x).2, hu2.2.2.1, hu2.2.2.2⟩
            · exact hinv
  · intro st uid mode tm send hmode hinv
    exact smwt_preserves st uid mode tm send hmode hinv
  · intro st uid mode tS sends hmode hinv
    by_cases hm : mode ∈ timed_modes
    · simp only [set_mode, hm, if_pos]
      exact smwt_preserves st uid mode none tS hmode hinv
    · simp only [set_mode, hm, if_neg, not_false_iff]
      cases hu : dictGet st.units uid with
      | none => simpa [hu] using hinv
      | some u0 =>
        cases hapi : st.hasApi with
        | false => simpa [hu, hapi] using hinv
        | true =>
          rcases hl : setModeAttempts sends 3 0 with ⟨res, n⟩
          cases res with
          | none => simpa [hu, hapi, hl] using hinv
          | some b =>
            cases b with
            | false => simpa [hu, hapi, hl] using hinv
            | true =>
              simp only [hu, hapi, if_true, hl]
              apply UnitsInv_modify
              · intro u hu2
                exact ⟨hu2.1, hu2.2.1, hmode, hu2.2.2.2⟩
              · exact hinv
  · intro st uid mode tv hmode hinv
    cases hu : dictGet st.units uid with
    | none => simpa [set_user_mode_time, hu] using hinv
    | some u0 =>
      simp only [set_user_mode_time, hu]
      apply UnitsInv_modify
      · intro u hu2
        refine ⟨hu2.1, hu2.2.1, hu2.2.2.1, ?_⟩
        intro p hp
        rcases mem_dictSet hp with h | h
        · exact hu2.2.2.2 p h
        · rw [h]
          exact hmode
      · exact hinv
  · intro blob
    induction blob with
    | nil =>
      intro units _ hinv
      exact hinv
    | cons e rest ih =>
      intro units hkeys hinv
      have h0 : async_load_stored_time_values units (some (e :: rest))
          = async_load_stored_time_values (loadStep units e) (some rest) := rfl
      rw [h0]
      exact ih (loadStep units e)
        (fun e2 he2 p hp => hkeys e2 (List.mem_cons_of_mem _ he2) p hp)
        (loadStep_preserves units e
          (fun p hp => hkeys e (List.mem_cons_self _ _) p hp) hinv)

/-- Witness for the amended claim C6: storing a valid timed-mode key on
the sample state preserves the invariant. -/
theorem state_invariant_preserved_witness :
    UnitsInv (set_user_mode_time devState "dev1" "holiday" 60).st.units :=
  state_invariant_preserved.2.2.2.1 devState "dev1" "holiday" 60 (by decide)
    (by unfold UnitsInv UnitInv; decide)

end Systemair
